import Mathlib

/-!
Verification of the APC-UPS controller against its specification.

The Python modules are shallowly embedded: pure functions become Lean
functions, protocol interactions become explicit response streams, and
the float fields that the claims compare only against constants are
modelled by rationals.
-/

namespace APCUps

/-! ## `apc_ups/core/editable_settings.py` -/

/-- `DangerLevel` enum from `editable_settings.py`. -/
inductive DangerLevel where
  | normal
  | caution
  | dangerous
deriving DecidableEq, Repr

/-- `EditableSetting` dataclass: definition of an editable UPS EEPROM setting
(the `labels` mapping is a value-to-display map, kept as an association list). -/
structure EditableSetting where
  cmd_char : String
  name : String
  unit : String
  allowed_values : List String
  labels : List (String × String)
  danger : DangerLevel
  state_key : String
  direct_edit : Bool := false
  description : String := ""
deriving DecidableEq, Repr

/-- `SETTINGS["self_test_interval"]`. -/
def selfTestIntervalSetting : EditableSetting :=
  { cmd_char := "E", name := "Self Test Interval", unit := "Hr"
    allowed_values := ["336", "168", "ON ", "OFF"]
    labels := [("336", "Every 336 hours (14 days)"), ("168", "Every 168 hours (7 days)"),
               ("ON ", "On startup"), ("OFF", "No automatic test")]
    danger := .normal, state_key := "self_test_interval"
    description := "How often the UPS runs an automatic battery self-test." }

/-- `SETTINGS["alarm_control"]`. -/
def alarmControlSetting : EditableSetting :=
  { cmd_char := "k", name := "Alarm Control", unit := ""
    allowed_values := ["0", "T", "L", "N"]
    labels := [("0", "Immediate (5 sec delay)"), ("T", "30-second delay"),
               ("L", "Low battery only"), ("N", "Disabled")]
    danger := .normal, state_key := "alarm_control"
    description := "Controls when the audible alarm sounds." }

/-- `SETTINGS["ups_id"]` (free text, 8 chars, direct edit). -/
def upsIdSetting : EditableSetting :=
  { cmd_char := "c", name := "UPS ID", unit := ""
    allowed_values := [], labels := []
    danger := .normal, state_key := "ups_id", direct_edit := true
    description := "8-character identifier stored in UPS EEPROM." }

/-- `SETTINGS["battery_replace_date"]` (free text, dd/mm/yy, direct edit). -/
def batteryReplaceDateSetting : EditableSetting :=
  { cmd_char := "x", name := "Battery Replacement Date", unit := ""
    allowed_values := [], labels := []
    danger := .normal, state_key := "battery_replace_date", direct_edit := true
    description := "Date batteries were last replaced (dd/mm/yy)." }

/-- `SETTINGS["low_battery_warning"]`. -/
def lowBatteryWarningSetting : EditableSetting :=
  { cmd_char := "q", name := "Low Battery Warning", unit := "Min"
    allowed_values := ["02", "05", "07", "10"]
    labels := [("02", "2 minutes"), ("05", "5 minutes"), ("07", "7 minutes"), ("10", "10 minutes")]
    danger := .caution, state_key := "low_battery_warning"
    description := "Minutes of warning before UPS shuts down on low battery." }

/-- `SETTINGS["shutdown_delay"]`. -/
def shutdownDelaySetting : EditableSetting :=
  { cmd_char := "p", name := "Shutdown Delay", unit := "Sec"
    allowed_values := ["020", "180", "300", "600"]
    labels := [("020", "20 seconds"), ("180", "180 seconds"),
               ("300", "300 seconds"), ("600", "600 seconds")]
    danger := .caution, state_key := "shutdown_delay"
    description := "Delay between shutdown command and actual power off." }

/-- `SETTINGS["turn_on_delay"]`. -/
def turnOnDelaySetting : EditableSetting :=
  { cmd_char := "r", name := "Wake Up Delay", unit := "Sec"
    allowed_values := ["000", "060", "180", "300"]
    labels := [("000", "No delay"), ("060", "60 seconds"),
               ("180", "180 seconds"), ("300", "300 seconds")]
    danger := .caution, state_key := "turn_on_delay"
    description := "Delay before UPS restarts after a shutdown." }

/-- `SETTINGS["min_battery_restart"]`. -/
def minBatteryRestartSetting : EditableSetting :=
  { cmd_char := "e", name := "Min Battery to Restart", unit := "%"
    allowed_values := ["00", "15", "50", "90"]
    labels := [("00", "0% (restart immediately)"), ("15", "15%"), ("50", "50%"), ("90", "90%")]
    danger := .caution, state_key := "min_battery_restart"
    description := "Minimum battery capacity before UPS restarts after shutdown." }

/-- `SETTINGS["sensitivity"]` — note the cycle repeats "L" for the 4-slot EEPROM. -/
def sensitivitySetting : EditableSetting :=
  { cmd_char := "s", name := "Sensitivity", unit := ""
    allowed_values := ["H", "M", "L", "L"]
    labels := [("H", "High"), ("M", "Medium"), ("L", "Low")]
    danger := .caution, state_key := "sensitivity"
    description := "How sensitive the UPS is to utility voltage fluctuations." }

/-- `SETTINGS["upper_transfer_voltage"]`. -/
def upperTransferVoltageSetting : EditableSetting :=
  { cmd_char := "u", name := "Upper Transfer Voltage", unit := "V"
    allowed_values := ["253", "264", "271", "280"]
    labels := [("253", "253 V"), ("264", "264 V"), ("271", "271 V"), ("280", "280 V")]
    danger := .caution, state_key := "upper_transfer_voltage"
    description := "Input voltage above which the UPS transfers to battery." }

/-- `SETTINGS["lower_transfer_voltage"]`. -/
def lowerTransferVoltageSetting : EditableSetting :=
  { cmd_char := "l", name := "Lower Transfer Voltage", unit := "V"
    allowed_values := ["196", "188", "208", "204"]
    labels := [("196", "196 V"), ("188", "188 V"), ("208", "208 V"), ("204", "204 V")]
    danger := .caution, state_key := "lower_transfer_voltage"
    description := "Input voltage below which SmartBoost engages." }

/-- `SETTINGS["output_voltage_setting"]`. -/
def outputVoltageSetting : EditableSetting :=
  { cmd_char := "o", name := "Output Voltage", unit := "V"
    allowed_values := ["225", "230", "240", "220"]
    labels := [("225", "225 V"), ("230", "230 V"), ("240", "240 V"), ("220", "220 V")]
    danger := .caution, state_key := "output_voltage_setting"
    description := "Nominal on-battery output voltage." }

/-- `SETTINGS["battery_packs"]`. -/
def batteryPacksSetting : EditableSetting :=
  { cmd_char := ">", name := "External Battery Packs", unit := ""
    allowed_values := ["000", "001", "002", "003", "004", "005", "006", "007", "008",
                       "009", "010", "011", "012", "013", "014", "015", "016"]
    labels := [("000", "0 (no external packs)"), ("001", "1 pack"), ("002", "2 packs"),
               ("003", "3 packs"), ("004", "4 packs"), ("005", "5 packs"), ("006", "6 packs"),
               ("007", "7 packs"), ("008", "8 packs"), ("009", "9 packs"), ("010", "10 packs"),
               ("011", "11 packs"), ("012", "12 packs"), ("013", "13 packs"), ("014", "14 packs"),
               ("015", "15 packs"), ("016", "16 packs")]
    danger := .caution, state_key := "battery_packs"
    description := "Number of external battery packs connected. Affects runtime calculation. Must match physical hardware." }

/-- The `SETTINGS` dict, as an association list in the source's insertion order. -/
def SETTINGS : List (String × EditableSetting) :=
  [("self_test_interval", selfTestIntervalSetting),
   ("alarm_control", alarmControlSetting),
   ("ups_id", upsIdSetting),
   ("battery_replace_date", batteryReplaceDateSetting),
   ("low_battery_warning", lowBatteryWarningSetting),
   ("shutdown_delay", shutdownDelaySetting),
   ("turn_on_delay", turnOnDelaySetting),
   ("min_battery_restart", minBatteryRestartSetting),
   ("sensitivity", sensitivitySetting),
   ("upper_transfer_voltage", upperTransferVoltageSetting),
   ("lower_transfer_voltage", lowerTransferVoltageSetting),
   ("output_voltage_setting", outputVoltageSetting),
   ("battery_packs", batteryPacksSetting)]

/-- `count_edits_needed(setting, current, target)`: how many Edit (`-`)
commands are needed to cycle from `current` to `target`.  Mirrors the Python:
empty cycle or absent target give `None`; `current`'s index defaults to 0
when `current` is absent (`values.index` raising `ValueError`); then the
first `steps` in `1..len(values)` whose cycle value matches is returned. -/
def countEditsNeeded (setting : EditableSetting) (current target : String) : Option Nat :=
  if setting.allowed_values = [] then none
  else if target ∈ setting.allowed_values then
    (List.range' 1 setting.allowed_values.length).find? (fun steps =>
      setting.allowed_values.getD
        (((setting.allowed_values.indexOf? current).getD 0 + steps) %
          setting.allowed_values.length) "" == target)
  else none

/-! ### Helper lemmas about searches over `List.range'` -/

theorem find?_range'_spec (p : Nat → Bool) :
    ∀ (n a s : Nat), (List.range' a n).find? p = some s →
      a ≤ s ∧ s < a + n ∧ p s = true ∧ ∀ t, a ≤ t → t < s → p t = false := by
  intro n
  induction n with
  | zero => intro a s h; simp [List.range'] at h
  | succ n ih =>
    intro a s h
    rw [List.range'_succ] at h
    by_cases hpa : p a
    · rw [List.find?_cons_of_pos _ hpa] at h
      obtain rfl : a = s := by simpa using h
      exact ⟨le_refl _, by omega, hpa, fun t hta hts => absurd hta (by omega)⟩
    · rw [List.find?_cons_of_neg _ hpa] at h
      obtain ⟨h1, h2, h3, h4⟩ := ih (a + 1) s h
      refine ⟨by omega, by omega, h3, ?_⟩
      intro t hat hts
      rcases Nat.eq_or_lt_of_le hat with rfl | hlt
      · exact Bool.eq_false_iff.mpr hpa
      · exact h4 t (by omega) hts

theorem find?_range'_eq_some (p : Nat → Bool) :
    ∀ (n a s : Nat), a ≤ s → s < a + n → p s = true →
      (∀ t, a ≤ t → t < s → p t = false) → (List.range' a n).find? p = some s := by
  intro n
  induction n with
  | zero => intro a s h1 h2; omega
  | succ n ih =>
    intro a s h1 h2 hp hmin
    rw [List.range'_succ]
    rcases Nat.eq_or_lt_of_le h1 with rfl | hlt
    · rw [List.find?_cons_of_pos _ hp]
    · rw [List.find?_cons_of_neg]
      · exact ih (a + 1) s (by omega) (by omega) hp fun t ht ht2 => hmin t (by omega) ht2
      · intro hpa
        have := hmin a (le_refl a) hlt
        rw [hpa] at this
        exact Bool.noConfusion this

theorem findSome?_range'_eq_some {α : Type} (f : Nat → Option α) :
    ∀ (n a j : Nat) (b : α), a ≤ j → j < a + n → f j = some b →
      (∀ t, a ≤ t → t < j → f t = none) → (List.range' a n).findSome? f = some b := by
  intro n
  induction n with
  | zero => intro a j b h1 h2; omega
  | succ n ih =>
    intro a j b h1 h2 hj hmin
    rw [List.range'_succ, List.findSome?_cons]
    rcases Nat.eq_or_lt_of_le h1 with rfl | hlt
    · rw [hj]
    · rw [hmin a (le_refl a) hlt]
      exact ih (a + 1) j b (by omega) (by omega) hj fun t ht ht2 => hmin t (by omega) ht2

theorem indexOf?_lt_length {α : Type} [BEq α] :
    ∀ (l : List α) (a : α) (i : Nat), List.indexOf? a l = some i → i < l.length := by
  intro l
  induction l with
  | nil => intro a i h; simp [List.indexOf?, List.findIdx?] at h
  | cons x xs ih =>
    intro a i h
    rw [List.indexOf?_cons] at h
    by_cases hx : (x == a) = true
    · rw [if_pos hx] at h
      obtain rfl : (0 : Nat) = i := by simpa using h
      simp
    · rw [if_neg hx] at h
      obtain ⟨j, hj, rfl⟩ := Option.map_eq_some'.mp h
      have := ih a j hj
      simp only [List.length_cons]
      omega

/-- C1: for every editable setting with a non-empty allowed-values cycle,
`count_edits_needed` returns the least step count `s ∈ [1, n]` whose cycle
value at `(index(current) + s) % n` equals the target (`index(current)` being
the first occurrence of `current`, defaulting to 0 when absent, so a
duplicated target is reached at its first forward occurrence), and it
returns `None` exactly when the target does not occur in the cycle. -/
theorem count_edits_cycle_correct (setting : EditableSetting) (current target : String)
    (hne : setting.allowed_values ≠ []) :
    (countEditsNeeded setting current target = none ↔ target ∉ setting.allowed_values) ∧
    (∀ s, countEditsNeeded setting current target = some s →
      1 ≤ s ∧ s ≤ setting.allowed_values.length ∧
      setting.allowed_values.getD
        (((setting.allowed_values.indexOf? current).getD 0 + s) %
          setting.allowed_values.length) "" = target ∧
      ∀ t, 1 ≤ t → t < s →
        setting.allowed_values.getD
          (((setting.allowed_values.indexOf? current).getD 0 + t) %
            setting.allowed_values.length) "" ≠ target) := by
  set values := setting.allowed_values with hvalues
  set idx := (values.indexOf? current).getD 0 with hidx
  set n := values.length with hn
  have hnpos : 0 < n := by
    rw [hn]
    exact List.length_pos.mpr hne
  have hidxlt : idx < n := by
    rw [hidx]
    cases hio : values.indexOf? current with
    | none => simpa using hnpos
    | some i =>
      simpa using indexOf?_lt_length values current i hio
  have hdef : countEditsNeeded setting current target =
      if target ∈ values then
        (List.range' 1 n).find? (fun steps => values.getD ((idx + steps) % n) "" == target)
      else none := by
    rw [countEditsNeeded, if_neg hne]
  constructor
  · constructor
    · intro hnone hmem
      rw [hdef, if_pos hmem] at hnone
      obtain ⟨⟨j, hj⟩, hget⟩ := List.mem_iff_get.mp hmem
      -- a step count in [1, n] that lands exactly on index j
      set s := if idx < j then j - idx else n - idx + j with hs
      have hs1 : 1 ≤ s := by rw [hs]; split <;> omega
      have hs2 : s ≤ n := by rw [hs]; split <;> omega
      have hmod : (idx + s) % n = j := by
        rw [hs]
        split
        · rw [show idx + (j - idx) = j by omega]
          exact Nat.mod_eq_of_lt hj
        · rw [show idx + (n - idx + j) = n + j by omega, Nat.add_mod_left]
          exact Nat.mod_eq_of_lt hj
      have hps : (values.getD ((idx + s) % n) "" == target) = true := by
        rw [hmod, List.getD_eq_get values "" hj, hget]
        simp
      have hins : s ∈ List.range' 1 n := List.mem_range'_1.mpr ⟨hs1, by omega⟩
      exact List.find?_eq_none.mp hnone s hins hps
    · intro hnotmem
      rw [hdef, if_neg hnotmem]
  · intro s hsome
    by_cases hmem : target ∈ values
    · rw [hdef, if_pos hmem] at hsome
      obtain ⟨h1, h2, h3, h4⟩ := find?_range'_spec _ n 1 s hsome
      refine ⟨h1, by omega, by simpa using h3, ?_⟩
      intro t ht1 hts heq
      have := h4 t ht1 hts
      rw [heq] at this
      simp at this
    · rw [hdef, if_neg hmem] at hsome
      exact Option.noConfusion hsome

/-- Witness for `count_edits_cycle_correct` at a concrete setting and target. -/
theorem count_edits_cycle_correct_witness :
    countEditsNeeded selfTestIntervalSetting "336" "999" = none :=
  (count_edits_cycle_correct selfTestIntervalSetting "336" "999" (by decide)).1.mpr (by decide)

/-- C3 counterexample: in the sensitivity cycle `["H", "M", "L", "L"]` the
value "L" is duplicated, and cycling from "L" back to "L" takes a single edit
(the next forward occurrence), not the full cycle length 4. -/
theorem count_edits_same_value_counterexample :
    countEditsNeeded sensitivitySetting "L" "L" = some 1 ∧
    sensitivitySetting.allowed_values.length = 4 ∧
    "L" ∈ sensitivitySetting.allowed_values ∧
    countEditsNeeded sensitivitySetting "L" "L" ≠
      some sensitivitySetting.allowed_values.length := by
  refine ⟨by decide, by decide, by decide, by decide⟩

/-- C3 as amended: for every setting in `SETTINGS` whose cycle is longer than 1,
requesting the value the device is already at needs a full wrap
(`count_edits_needed(X, X) = cycle length`) whenever `X` occurs exactly once in
the cycle; for the duplicated sensitivity value "L" it instead returns the
distance to the next forward occurrence, namely 1. -/
theorem count_edits_same_value_full_wrap :
    (∀ p ∈ SETTINGS, ∀ X ∈ p.2.allowed_values,
      1 < p.2.allowed_values.length → p.2.allowed_values.count X = 1 →
      countEditsNeeded p.2 X X = some p.2.allowed_values.length) ∧
    countEditsNeeded sensitivitySetting "L" "L" = some 1 := by
  constructor
  · decide
  · decide

/-- Witness for `count_edits_same_value_full_wrap` at the alarm-control setting. -/
theorem count_edits_same_value_full_wrap_witness :
    countEditsNeeded alarmControlSetting "T" "T" = some 4 :=
  count_edits_same_value_full_wrap.1 ("alarm_control", alarmControlSetting)
    (by decide) "T" (by decide) (by decide) (by decide)

/-! ## `apc_ups/protocol/constants.py` and `ups_protocol.py` -/

/-- `ALERT_CHARS`: the asynchronous alert characters. -/
def ALERT_CHARS : List Char := ['!', '$', '%', '+', '?', '=', '*', '#', '&', '|']

/-- `RESPONSE_TERMINATOR` (`b"\r\n"`). -/
def RESPONSE_TERMINATOR : List Char := ['\r', '\n']

/-- Python `str.isspace` on the ASCII range, as used by `str.strip()`. -/
def pyIsSpace (c : Char) : Bool :=
  c == ' ' || c == '\t' || c == '\n' || c == '\r' || c == '\x0b' || c == '\x0c'

/-- Python `str.strip()` on a character list: drop leading and trailing whitespace. -/
def pyStrip (l : List Char) : List Char :=
  ((l.dropWhile pyIsSpace).reverse.dropWhile pyIsSpace).reverse

/-- `UPSProtocol._read_response_locked`, reading from an explicit byte stream.
Returns the alert characters dispatched (in order), the value the Python
function returns (`none` models `None`), and the unread rest of the stream.
An exhausted stream models a read timeout (`conn.read(1)` returning `b""`). -/
def readResponseLoop : List Char → List Char → List Char × Option (List Char) × List Char
  | buf, [] =>
    -- timeout: return the stripped partial buffer if non-empty, else None
    if buf ≠ [] then
      ([], if pyStrip buf ≠ [] then some (pyStrip buf) else none, [])
    else ([], none, [])
  | buf, c :: rest =>
    if c ∈ ALERT_CHARS then
      -- alert character (at the start or mid-response): dispatch, do not buffer
      let out := readResponseLoop buf rest
      (c :: out.1, out.2.1, out.2.2)
    else
      -- buf.extend(byte); check for terminator
      if RESPONSE_TERMINATOR.isSuffixOf (buf ++ [c]) then
        ([],
         if (buf ++ [c]).dropLast.dropLast ≠ [] then
           some (pyStrip ((buf ++ [c]).dropLast.dropLast))
         else none,
         rest)
      else readResponseLoop (buf ++ [c]) rest

/-- `_read_response_locked` run against a fresh buffer. -/
def readResponse (stream : List Char) : List Char × Option (List Char) × List Char :=
  readResponseLoop [] stream

/-- The returned response is unchanged when the alert characters are deleted
from the stream beforehand: alert bytes never reach the buffer. -/
theorem readResponseLoop_filter_alerts :
    ∀ (s buf : List Char),
      (readResponseLoop buf s).2.1 =
        (readResponseLoop buf (s.filter (fun c => decide (c ∉ ALERT_CHARS)))).2.1 := by
  intro s
  induction s with
  | nil => intro buf; rfl
  | cons c s ih =>
    intro buf
    by_cases hc : c ∈ ALERT_CHARS
    · have hfc : (fun c => decide (c ∉ ALERT_CHARS)) c = false := by simp [hc]
      rw [List.filter_cons, if_neg (by simp [hc])]
      simp only [readResponseLoop, if_pos hc]
      exact ih buf
    · have hfc : (fun c => decide (c ∉ ALERT_CHARS)) c = true := by simp [hc]
      rw [List.filter_cons, if_pos (by simp [hc])]
      simp only [readResponseLoop, if_neg hc]
      by_cases hterm : RESPONSE_TERMINATOR.isSuffixOf (buf ++ [c])
      · rw [if_pos hterm, if_pos hterm]
      · rw [if_neg hterm, if_neg hterm]
        exact ih (buf ++ [c])

/-- The dispatched alerts are exactly the alert characters of the consumed
part of the stream, in order. -/
theorem readResponseLoop_alerts_consumed :
    ∀ (s buf : List Char), ∃ consumed,
      consumed ++ (readResponseLoop buf s).2.2 = s ∧
      (readResponseLoop buf s).1 = consumed.filter (fun c => decide (c ∈ ALERT_CHARS)) := by
  intro s
  induction s with
  | nil =>
    intro buf
    refine ⟨[], ?_, ?_⟩ <;> by_cases hb : buf ≠ [] <;>
      simp only [readResponseLoop, if_pos hb, if_neg hb] <;> rfl
  | cons c s ih =>
    intro buf
    by_cases hc : c ∈ ALERT_CHARS
    · obtain ⟨con, hcon, halerts⟩ := ih buf
      refine ⟨c :: con, ?_, ?_⟩
      · simp only [readResponseLoop, if_pos hc]
        rw [List.cons_append, hcon]
      · simp only [readResponseLoop, if_pos hc]
        rw [List.filter_cons, if_pos (by simp [hc]), halerts]
    · by_cases hterm : RESPONSE_TERMINATOR.isSuffixOf (buf ++ [c])
      · refine ⟨[c], ?_, ?_⟩
        · simp only [readResponseLoop, if_neg hc, if_pos hterm]
          rfl
        · simp only [readResponseLoop, if_neg hc, if_pos hterm]
          rw [List.filter_cons, if_neg (by simp [hc])]
          rfl
      · obtain ⟨con, hcon, halerts⟩ := ih (buf ++ [c])
        refine ⟨c :: con, ?_, ?_⟩
        · simp only [readResponseLoop, if_neg hc, if_neg hterm]
          rw [List.cons_append, hcon]
        · simp only [readResponseLoop, if_neg hc, if_neg hterm]
          rw [List.filter_cons, if_neg (by simp [hc]), halerts]

/-- The terminator is not a suffix of a list ending in a carriage return. -/
theorem terminator_not_suffix_of_concat_cr (l : List Char) :
    ¬ RESPONSE_TERMINATOR.isSuffixOf (l ++ ['\r']) := by
  intro h
  have hsuf : RESPONSE_TERMINATOR <:+ l ++ ['\r'] := List.isSuffixOf_iff_suffix.mp h
  obtain ⟨k, hk⟩ := hsuf
  have h1 : (l ++ ['\r']).getLast? = some '\r' := by
    rw [List.getLast?_concat]
  have h2 : (k ++ RESPONSE_TERMINATOR).getLast? = some '\n' := by
    show (k ++ ['\r', '\n']).getLast? = some '\n'
    rw [show k ++ ['\r', '\n'] = (k ++ ['\r']) ++ ['\n'] by simp, List.getLast?_concat]
  rw [hk] at h2
  rw [h1] at h2
  exact absurd (Option.some.inj h2) (by decide)

/-- A stream consisting of alert-free bytes `t` followed by CRLF, where no
intermediate buffer ends in CRLF, terminates at the trailing CRLF and returns
the accumulated buffer (stripped of the terminator, then trimmed). -/
theorem readResponseLoop_crlf :
    ∀ (t buf : List Char),
      (∀ c ∈ t, c ∉ ALERT_CHARS) →
      (∀ p, p <+: t → p ≠ [] → ¬ RESPONSE_TERMINATOR.isSuffixOf (buf ++ p)) →
      readResponseLoop buf (t ++ RESPONSE_TERMINATOR) =
        ([], if buf ++ t ≠ [] then some (pyStrip (buf ++ t)) else none, []) := by
  intro t
  induction t with
  | nil =>
    intro buf _ _
    show readResponseLoop buf ('\r' :: ['\n']) = _
    have hcr : ('\r' : Char) ∉ ALERT_CHARS := by decide
    have hlf : ('\n' : Char) ∉ ALERT_CHARS := by decide
    simp only [readResponseLoop, if_neg hcr,
      if_neg (terminator_not_suffix_of_concat_cr buf), if_neg hlf]
    have hterm : RESPONSE_TERMINATOR.isSuffixOf ((buf ++ ['\r']) ++ ['\n']) := by
      apply List.isSuffixOf_iff_suffix.mpr
      refine ⟨buf, ?_⟩
      simp [RESPONSE_TERMINATOR]
    rw [if_pos hterm]
    have hdrop : ((buf ++ ['\r']) ++ ['\n']).dropLast.dropLast = buf := by
      rw [List.dropLast_concat, List.dropLast_concat]
    rw [hdrop]
    simp
  | cons c t ih =>
    intro buf halert hsafe
    have hc : c ∉ ALERT_CHARS := halert c (List.mem_cons_self c t)
    have hnterm : ¬ RESPONSE_TERMINATOR.isSuffixOf (buf ++ [c]) :=
      hsafe [c] ⟨t, rfl⟩ (by simp)
    show readResponseLoop buf (c :: (t ++ RESPONSE_TERMINATOR)) = _
    simp only [readResponseLoop, if_neg hc, if_neg hnterm]
    have := ih (buf ++ [c]) (fun x hx => halert x (List.mem_cons_of_mem c hx))
      (fun p hp hpne => by
        have := hsafe (c :: p) (by exact ⟨hp.choose, by rw [List.cons_append, hp.choose_spec]⟩)
          (by simp)
        rwa [show buf ++ (c :: p) = (buf ++ [c]) ++ p by simp] at this)
    rw [this]
    have : (buf ++ [c]) ++ t = buf ++ (c :: t) := by simp
    rw [this]

/-- A fully alert-free stream with no CRLF-terminated intermediate buffer is
consumed to exhaustion (a read timeout) and the stripped partial buffer, when
non-empty, is returned. -/
theorem readResponseLoop_timeout :
    ∀ (s buf : List Char),
      (∀ c ∈ s, c ∉ ALERT_CHARS) →
      (∀ p, p <+: s → p ≠ [] → ¬ RESPONSE_TERMINATOR.isSuffixOf (buf ++ p)) →
      readResponseLoop buf s =
        ([], if pyStrip (buf ++ s) ≠ [] then some (pyStrip (buf ++ s)) else none, []) := by
  intro s
  induction s with
  | nil =>
    intro buf _ _
    by_cases hb : buf = []
    · subst hb; rfl
    · simp only [readResponseLoop, if_pos hb, List.append_nil]
  | cons c s ih =>
    intro buf halert hsafe
    have hc : c ∉ ALERT_CHARS := halert c (List.mem_cons_self c s)
    have hnterm : ¬ RESPONSE_TERMINATOR.isSuffixOf (buf ++ [c]) :=
      hsafe [c] ⟨s, rfl⟩ (by simp)
    show readResponseLoop buf (c :: s) = _
    simp only [readResponseLoop, if_neg hc, if_neg hnterm]
    have := ih (buf ++ [c]) (fun x hx => halert x (List.mem_cons_of_mem c hx))
      (fun p hp hpne => by
        have := hsafe (c :: p) (by exact ⟨hp.choose, by rw [List.cons_append, hp.choose_spec]⟩)
          (by simp)
        rwa [show buf ++ (c :: p) = (buf ++ [c]) ++ p by simp] at this)
    rw [this]
    have : (buf ++ [c]) ++ s = buf ++ (c :: s) := by simp
    rw [this]

/-- When the terminator is not an infix of the stream, no non-empty stream
prefix appended to a fresh buffer ends in the terminator. -/
theorem no_terminator_infix_safe (s : List Char) (hinf : ¬ RESPONSE_TERMINATOR <:+: s) :
    ∀ p, p <+: s → p ≠ [] → ¬ RESPONSE_TERMINATOR.isSuffixOf ([] ++ p) := by
  intro p hp hpne hsuf
  rw [List.nil_append] at hsuf
  obtain ⟨u, hu⟩ := List.isSuffixOf_iff_suffix.mp hsuf
  obtain ⟨v, hv⟩ := hp
  exact hinf ⟨u, v, by rw [← hv, ← hu]⟩

/-- The exact value `_read_response_locked` returns on an alert-free stream
with no CRLF: it consumes everything (timeout) and returns the stripped
buffer when non-empty, else `None`. -/
theorem readResponse_timeout_value (s : List Char)
    (halert : ∀ c ∈ s, c ∉ ALERT_CHARS) (hinf : ¬ RESPONSE_TERMINATOR <:+: s) :
    readResponse s = ([], if pyStrip s ≠ [] then some (pyStrip s) else none, []) := by
  rw [readResponse, readResponseLoop_timeout s [] halert (no_terminator_infix_safe s hinf)]
  rw [List.nil_append]

/-- C2: the response reader dispatches every alert byte and keeps it out of
the buffer wherever it occurs (the returned response equals the one computed
from the alert-free stream, and the dispatched alerts are exactly the alert
bytes of the consumed part, in order); alert-free bytes accumulate until a
trailing CRLF, at which point the trimmed buffer is returned; at stream
exhaustion (read timeout) a non-empty trimmed partial buffer is returned and
otherwise `None`; and the stream `!OK\r\n` dispatches `!` and returns `OK`. -/
theorem read_response_alert_filtering :
    readResponse ("!OK\r\n".toList) = (['!'], some "OK".toList, []) ∧
    (∀ s, (readResponse s).2.1 =
      (readResponse (s.filter (fun c => decide (c ∉ ALERT_CHARS)))).2.1) ∧
    (∀ s, ∃ consumed, consumed ++ (readResponse s).2.2 = s ∧
      (readResponse s).1 = consumed.filter (fun c => decide (c ∈ ALERT_CHARS))) ∧
    (∀ t, t ≠ [] → (∀ c ∈ t, c ∉ ALERT_CHARS) → ¬ RESPONSE_TERMINATOR <:+: t →
      readResponse (t ++ RESPONSE_TERMINATOR) = ([], some (pyStrip t), [])) ∧
    (∀ s, (∀ c ∈ s, c ∉ ALERT_CHARS) → ¬ RESPONSE_TERMINATOR <:+: s →
      readResponse s =
        ([], if pyStrip s ≠ [] then some (pyStrip s) else none, [])) := by
  refine ⟨by decide, ?_, ?_, ?_, ?_⟩
  · intro s
    exact readResponseLoop_filter_alerts s []
  · intro s
    exact readResponseLoop_alerts_consumed s []
  · intro t hne halert hinf
    rw [readResponse, readResponseLoop_crlf t [] halert (no_terminator_infix_safe t hinf)]
    simp [hne]
  · intro s halert hinf
    exact readResponse_timeout_value s halert hinf

/-- Witness for `read_response_alert_filtering` at concrete streams. -/
theorem read_response_alert_filtering_witness :
    readResponse ("OK\r\n".toList) = ([], some "OK".toList, []) ∧
    readResponse ("NA".toList) = ([], some "NA".toList, []) :=
  ⟨read_response_alert_filtering.2.2.2.1 "OK".toList (by decide) (by decide) (by decide),
   read_response_alert_filtering.2.2.2.2 "NA".toList (by decide) (by decide)⟩

/-- C10 counterexample: a whitespace-only line before the CRLF terminator is
returned as the *empty string*, not as `None` — the stream `" \r\n"` yields
`some ""` (the buffer `" "` is non-empty, so the code returns it stripped). -/
theorem read_response_blank_counterexample :
    (readResponse (' ' :: RESPONSE_TERMINATOR)).2.1 = some [] ∧
    (readResponse (' ' :: RESPONSE_TERMINATOR)).2.1 ≠ none := by
  refine ⟨by decide, by decide⟩

/-- C10 as amended: before CRLF, only an *empty* pre-strip buffer maps to
`None` — a whitespace-only non-empty line is returned as the empty string —
while at a read timeout an empty or whitespace-only partial buffer maps to
`None`. -/
theorem read_response_blank_amended :
    (readResponse RESPONSE_TERMINATOR).2.1 = none ∧
    (∀ s, (∀ c ∈ s, c ∉ ALERT_CHARS) → ¬ RESPONSE_TERMINATOR <:+: s →
      pyStrip s = [] → (readResponse s).2.1 = none) ∧
    (readResponse (' ' :: RESPONSE_TERMINATOR)).2.1 = some [] := by
  refine ⟨by decide, ?_, by decide⟩
  intro s halert hinf hstrip
  rw [readResponse_timeout_value s halert hinf]
  simp [hstrip]

/-- Witness for `read_response_blank_amended` at a concrete stream. -/
theorem read_response_blank_amended_witness :
    (readResponse [' ', ' ']).2.1 = none :=
  read_response_blank_amended.2.1 [' ', ' '] (by decide) (by decide) (by decide)

/-! ## `apc_ups/core/ups_manager.py` — setting changes -/

/-- Python `str.strip()` on a `String`. -/
def pyStripStr (s : String) : String := String.mk (pyStrip s.toList)

/-- A run of decimal digits as a number; `none` on an empty or non-digit run. -/
def parseDigits (cs : List Char) : Option Nat :=
  if cs = [] then none
  else cs.foldl
    (fun acc c => acc.bind fun n =>
      if c.isDigit then some (n * 10 + (c.toNat - 48)) else none)
    (some 0)

/-- Python `int(s)` on the strings the manager parses (base-10, optional
sign, surrounding whitespace tolerated): `none` models `ValueError`. -/
def pyInt? (s : String) : Option Int :=
  match pyStrip s.toList with
  | '-' :: rest => (parseDigits rest).map (fun n => -(n : Int))
  | '+' :: rest => (parseDigits rest).map (fun n => (n : Int))
  | cs => (parseDigits cs).map (fun n => (n : Int))

/-- Python `f"{n:03d}"` for a non-negative value. -/
def pad3 (n : Nat) : String :=
  String.mk (List.replicate (3 - (toString n).length) '0') ++ toString n

/-- Result of a setting-change orchestration: success flag, message, number
of protocol edit/adjust calls issued, and the state field's final value. -/
structure SCResult where
  ok : Bool
  msg : String
  editCalls : Nat
  stateVal : String
deriving DecidableEq, Repr

/-- The shortest-path choice of `_execute_battery_packs_change` (lines
439-447): decrement count `(current - target) % 256`, increment count
`(target - current) % 256`, increment direction on ties. -/
def batteryPacksPlan (current target : Int) : Char × Int :=
  let dec_steps := (current - target) % 256
  let inc_steps := (target - current) % 256
  if inc_steps ≤ dec_steps then ('+', inc_steps) else ('-', dec_steps)

/-- One iteration of the adjust loop of `_execute_battery_packs_change`:
`some msg` when step `i` (0-based) aborts the loop, `none` when it passes. -/
def bpStepFail (steps : Nat) (adjResps : Nat → Option String) (i : Nat) : Option String :=
  match adjResps i with
  | none => some ("Step " ++ toString (i + 1) ++ "/" ++ toString steps ++
      " failed — no response")
  | some r =>
    let resp := pyStripStr r
    if resp = "NA" ∨ resp = "NO" then
      some ("Adjustment rejected at step " ++ toString (i + 1) ++ "/" ++ toString steps ++
        ": " ++ resp)
    else none

/-- `UPSManager._execute_battery_packs_change`, with the protocol interactions
made explicit: `currentResp` is the reply to the initial `>` read, `adjResps i`
the reply to the i-th `send_battery_packs_adjust`, `verifyResp` the reply to the
final `>` read. `packsState` is `state.battery_packs` going in. -/
def executeBatteryPacksChange (packsState targetValue : String)
    (currentResp : Option String) (adjResps : Nat → Option String)
    (verifyResp : Option String) : SCResult :=
  match pyInt? targetValue with
  | none => ⟨false, "Battery packs must be a number (0-255)", 0, packsState⟩
  | some target =>
    if target < 0 ∨ target > 255 then
      ⟨false, "Battery packs must be 0-255", 0, packsState⟩
    else
      let target_str := pad3 target.toNat
      match currentResp with
      | none => ⟨false, "Failed to read current battery packs value", 0, packsState⟩
      | some cr =>
        match pyInt? cr with
        | none => ⟨false, "Invalid current value: " ++ cr, 0, packsState⟩
        | some current =>
          if current = target then ⟨true, "Already set to target value", 0, packsState⟩
          else
            let plan := batteryPacksPlan current target
            let steps := plan.2.toNat
            match (List.range steps).findSome?
                (fun i => (bpStepFail steps adjResps i).map (fun m => (i, m))) with
            | some im => ⟨false, im.2, im.1 + 1, packsState⟩
            | none =>
              -- verify final value; `if verify` is Python truthiness ("" is falsy)
              match verifyResp with
              | some v =>
                if v ≠ "" ∧ pyStripStr v = target_str then
                  ⟨true, "OK", steps, target_str⟩
                else if v ≠ "" then
                  ⟨false, "Verification failed — UPS reports: " ++ pyStripStr v,
                    steps, pyStripStr v⟩
                else
                  ⟨false, "Verification failed — UPS reports: no response", steps, packsState⟩
              | none =>
                ⟨false, "Verification failed — UPS reports: no response", steps, packsState⟩

/-- One iteration of the edit loop of `_execute_setting_change` (lines
384-392): `some msg` when step `i` (0-based) aborts, `none` when it passes. -/
def scStepFail (steps : Nat) (editResps : Nat → Option String) (i : Nat) : Option String :=
  match editResps i with
  | none => some ("Edit step " ++ toString (i + 1) ++ "/" ++ toString steps ++
      " failed — no response")
  | some er =>
    let resp := pyStripStr er
    if resp = "NA" then
      some ("Edit rejected by UPS (NA) at step " ++ toString (i + 1) ++ "/" ++ toString steps)
    else if resp = "NO" then
      some "Edit disallowed — check DIP switch positions"
    else none

/-- The cycled-value path of `UPSManager._execute_setting_change` (lines
364-408; `direct_edit` settings branch off earlier to direct character input
or to `_execute_battery_packs_change`).  `stateVal` is the setting's current
field in shared state, `currentResp` the reply to the initial read,
`editResps i` the edit response of the i-th `send_setting_edit`, `verifyResp`
the reply to the final verification read. -/
def executeSettingChange (setting : EditableSetting) (targetValue stateVal : String)
    (currentResp : Option String) (editResps : Nat → Option String)
    (verifyResp : Option String) : SCResult :=
  match currentResp with
  | none => ⟨false, "Failed to read current value", 0, stateVal⟩
  | some current =>
    let old_value := pyStripStr current
    if old_value = targetValue then ⟨true, "Already set to target value", 0, stateVal⟩
    else
      match countEditsNeeded setting old_value targetValue with
      | none =>
        ⟨false, "Value '" ++ targetValue ++ "' not valid for " ++ setting.name, 0, stateVal⟩
      | some steps =>
        match (List.range steps).findSome?
            (fun i => (scStepFail steps editResps i).map (fun m => (i, m))) with
        | some im => ⟨false, im.2, im.1 + 1, stateVal⟩
        | none =>
          match verifyResp with
          | some v =>
            if v ≠ "" ∧ pyStripStr v = targetValue then
              ⟨true, "OK", steps, targetValue⟩
            else if v ≠ "" then
              ⟨false, "Verification failed — UPS reports: " ++ v, steps, pyStripStr v⟩
            else
              ⟨false, "Verification failed — UPS reports: ", steps, stateVal⟩
          | none => ⟨false, "Verification failed — UPS reports: None", steps, stateVal⟩

/-- C4: the battery-pack change compares `(target-current) mod 256` increments
against `(current-target) mod 256` decrements, performs the smaller count in
that direction with ties choosing increment, and changing "000" to "005"
performs exactly 5 increment steps (then verifies and succeeds). -/
theorem battery_packs_shortest_path (c t : Int)
    (hc0 : 0 ≤ c) (hc : c < 256) (ht0 : 0 ≤ t) (ht : t < 256) (hne : c ≠ t) :
    (batteryPacksPlan c t).2 = min ((t - c) % 256) ((c - t) % 256) ∧
    ((batteryPacksPlan c t).1 = '+' ↔ (t - c) % 256 ≤ (c - t) % 256) ∧
    batteryPacksPlan 0 5 = ('+', 5) ∧
    executeBatteryPacksChange "000" "005" (some "000") (fun _ => some "005") (some "005") =
      ⟨true, "OK", 5, "005"⟩ := by
  refine ⟨?_, ?_, by decide, by decide⟩
  · rw [batteryPacksPlan]
    rcases le_or_lt ((t - c) % 256) ((c - t) % 256) with h | h
    · rw [if_pos h]
      exact (min_eq_left h).symm
    · rw [if_neg (not_le.mpr h)]
      exact (min_eq_right (le_of_lt h)).symm
  · rw [batteryPacksPlan]
    rcases le_or_lt ((t - c) % 256) ((c - t) % 256) with h | h
    · rw [if_pos h]
      simp [h]
    · rw [if_neg (not_le.mpr h)]
      simp only
      constructor
      · intro habs
        exact absurd habs (by decide)
      · intro hle
        exact absurd hle (not_le.mpr h)

/-- Witness for `battery_packs_shortest_path` at current 0, target 5. -/
theorem battery_packs_shortest_path_witness :
    (batteryPacksPlan 0 5).2 = min ((5 - 0) % 256) ((0 - 5) % 256) :=
  (battery_packs_shortest_path 0 5 (by decide) (by decide) (by decide) (by decide)
    (by decide)).1

/-- C5 counterexample: a `NO` rejection code at edit step 2 of 3 aborts the
change, but the returned failure message is the fixed string
"Edit disallowed — check DIP switch positions", which reports no step
numbers at all (in particular "2/3" does not occur in it). -/
theorem setting_change_rejection_counterexample :
    executeSettingChange selfTestIntervalSetting "OFF" "336" (some "336")
      (fun i => if i = 0 then some "168" else some "NO") (some "OFF") =
      ⟨false, "Edit disallowed — check DIP switch positions", 2, "336"⟩ ∧
    ¬ ("2/3".toList <:+: "Edit disallowed — check DIP switch positions".toList) := by
  refine ⟨by decide, by decide⟩

/-- C5 as amended: when the device answers a rejection code at edit step `j+1`
of `steps` (all earlier steps passing), the change aborts immediately — exactly
`j+1` edit commands are issued — and the setting's shared-state field is left
unchanged; an `NA` rejection is reported with its step number `j+1/steps`,
while a `NO` rejection yields the fixed DIP-switch message without step
numbers. -/
theorem setting_change_rejection_aborts (setting : EditableSetting)
    (targetValue stateVal current : String) (editResps : Nat → Option String)
    (verifyResp : Option String) (steps j : Nat) (r : String)
    (hold : pyStripStr current ≠ targetValue)
    (hsteps : countEditsNeeded setting (pyStripStr current) targetValue = some steps)
    (hj : j < steps)
    (hpass : ∀ k, k < j → scStepFail steps editResps k = none)
    (hr : editResps j = some r) :
    (pyStripStr r = "NA" →
      executeSettingChange setting targetValue stateVal (some current) editResps verifyResp =
        ⟨false, "Edit rejected by UPS (NA) at step " ++ toString (j + 1) ++ "/" ++
          toString steps, j + 1, stateVal⟩) ∧
    (pyStripStr r = "NO" →
      executeSettingChange setting targetValue stateVal (some current) editResps verifyResp =
        ⟨false, "Edit disallowed — check DIP switch positions", j + 1, stateVal⟩) := by
  constructor
  · intro hna
    have hfail : scStepFail steps editResps j =
        some ("Edit rejected by UPS (NA) at step " ++ toString (j + 1) ++ "/" ++
          toString steps) := by
      rw [scStepFail, hr]
      simp only [hna]
      rfl
    have hfind : (List.range steps).findSome?
        (fun i => (scStepFail steps editResps i).map (fun m => (i, m))) =
        some (j, "Edit rejected by UPS (NA) at step " ++ toString (j + 1) ++ "/" ++
          toString steps) := by
      rw [List.range_eq_range']
      refine findSome?_range'_eq_some _ steps 0 j _ (Nat.zero_le j) (by omega) ?_ ?_
      · rw [hfail]
        rfl
      · intro k _ hk
        rw [hpass k hk]
        rfl
    simp only [executeSettingChange, if_neg hold, hsteps, hfind]
  · intro hno
    have hfail : scStepFail steps editResps j =
        some "Edit disallowed — check DIP switch positions" := by
      rw [scStepFail, hr]
      simp only [hno]
      rfl
    have hfind : (List.range steps).findSome?
        (fun i => (scStepFail steps editResps i).map (fun m => (i, m))) =
        some (j, "Edit disallowed — check DIP switch positions") := by
      rw [List.range_eq_range']
      refine findSome?_range'_eq_some _ steps 0 j _ (Nat.zero_le j) (by omega) ?_ ?_
      · rw [hfail]
        rfl
      · intro k _ hk
        rw [hpass k hk]
        rfl
    simp only [executeSettingChange, if_neg hold, hsteps, hfind]

/-- Witness for `setting_change_rejection_aborts`: an NA rejection at edit
step 2 of 3 of a self-test-interval change. -/
theorem setting_change_rejection_aborts_witness :
    executeSettingChange selfTestIntervalSetting "OFF" "336" (some "336")
      (fun i => if i = 0 then some "168" else some "NA") (some "OFF") =
      ⟨false, "Edit rejected by UPS (NA) at step 2/3", 2, "336"⟩ := by
  have h := (setting_change_rejection_aborts selfTestIntervalSetting "OFF" "336" "336"
      (fun i => if i = 0 then some "168" else some "NA") (some "OFF") 3 1 "NA"
      (by decide) (by decide) (by omega)
      (fun k hk => by
        have : k = 0 := by omega
        subst this
        decide)
      rfl).1 rfl
  exact h.trans (by decide)

/-! ## `apc_ups/core/calibration.py` -/

/-- `CalibrationState` enum. -/
inductive CalibrationState where
  | idle
  | checking
  | running
  | completed
  | failed
  | aborted
deriving DecidableEq, Repr

/-- `CalibrationManager.progress_pct`: 0 outside RUNNING, else
`(start - current) / 75 * 100` clamped into [0, 100] (the float arithmetic
is modelled over the rationals; the guard `range_total <= 0` of the source
is kept even though 75 > 0). -/
def progressPct (state : CalibrationState) (startPct currentPct : ℚ) : ℚ :=
  if state ≠ CalibrationState.running then 0
  else
    if (75 : ℚ) ≤ 0 then 0
    else min 100 (max 0 ((startPct - currentPct) / 75 * 100))

/-- C6: in RUNNING, `progress_pct` is `((start - current) / 75) * 100`
clamped to [0, 100] — 0 when current equals start and 100 when current is
start − 75 — and it is 0 in every state other than RUNNING. -/
theorem calibration_progress_pct_correct :
    (∀ s c : ℚ, progressPct .running s c = min 100 (max 0 ((s - c) / 75 * 100))) ∧
    (∀ s : ℚ, progressPct .running s s = 0) ∧
    (∀ s : ℚ, progressPct .running s (s - 75) = 100) ∧
    (∀ st, st ≠ CalibrationState.running → ∀ s c : ℚ, progressPct st s c = 0) := by
  have hrun : ∀ s c : ℚ, progressPct .running s c = min 100 (max 0 ((s - c) / 75 * 100)) := by
    intro s c
    rw [progressPct, if_neg (by simp), if_neg (by norm_num)]
  refine ⟨hrun, ?_, ?_, ?_⟩
  · intro s
    rw [hrun]
    norm_num
  · intro s
    rw [hrun]
    have : (s - (s - 75)) / 75 * 100 = 100 := by
      rw [show s - (s - 75) = (75 : ℚ) by ring]
      norm_num
    rw [this]
    norm_num
  · intro st hst s c
    rw [progressPct, if_pos hst]

/-- Witness for `calibration_progress_pct_correct` in a non-RUNNING state. -/
theorem calibration_progress_pct_correct_witness :
    progressPct CalibrationState.idle 100 40 = 0 :=
  calibration_progress_pct_correct.2.2.2 CalibrationState.idle (by decide) 100 40

/-! ## `apc_ups/core/ups_manager.py` — disconnect ordering (C7) -/

/-- The externally visible actions `UPSManager.disconnect` performs, in
program order.  `Thread.join(timeout=5.0)` returns in both outcomes, so the
join event carries whether the poll worker had actually terminated when the
call returned: `pollJoinReturn true` models the worker exiting within the
5-second timeout, `pollJoinReturn false` the timeout elapsing with the
worker still running (an in-flight serial command can block past 5 s). -/
inductive DisconnectEvent where
  | setConnectedFalse
  | pollStopSet
  | pollPausedSet
  | pollJoinReturn (workerTerminated : Bool)
  | transportClose
  | protocolClear
deriving DecidableEq, Repr

/-- `UPSManager.stop_polling`: set the stop event, set the pause event so the
thread can exit, then `join(timeout=5.0)` and drop the thread reference —
the method never calls `is_alive()` after the timed join, so both join
outcomes fall through to the same continuation. -/
def stopPollingEvents (workerTerminates : Bool) : List DisconnectEvent :=
  [.pollStopSet, .pollPausedSet, .pollJoinReturn workerTerminates]

/-- `UPSManager.disconnect`: mark disconnected first, then stop polling, then
close the serial port, then drop the protocol reference — unconditionally,
whatever the timed join observed. -/
def disconnectEvents (workerTerminates : Bool) : List DisconnectEvent :=
  [.setConnectedFalse] ++ stopPollingEvents workerTerminates ++
    [.transportClose, .protocolClear]

/-- Whether the poll worker is still running when `conn.close()` executes:
nothing between the return of `join(timeout=5.0)` and the close waits for or
re-checks the thread, so the worker is alive at the close exactly when it did
not terminate within the join timeout. -/
def workerAliveAtClose (workerTerminates : Bool) : Bool :=
  !workerTerminates

/-- The connection flags of `UPSState` that `disconnect` touches. -/
structure ConnState where
  connected : Bool
  smart_mode : Bool
deriving DecidableEq, Repr

/-- The effect of `disconnect` on the connection flags:
`state.update(connected=False, smart_mode=False)` and nothing later in the
method writes them again. -/
def disconnectState (s : ConnState) : ConnState :=
  { s with connected := false, smart_mode := false }

/-- C7 counterexample: when the poll worker does not terminate within the
5-second join timeout, `join(timeout=5.0)` returns anyway, `stop_polling`
never re-checks liveness, and `disconnect` closes the transport while the
worker is still running — the worker is not "fully joined (terminated)
before the transport is closed". -/
theorem disconnect_join_counterexample :
    workerAliveAtClose false = true ∧
    disconnectEvents false =
      [.setConnectedFalse, .pollStopSet, .pollPausedSet, .pollJoinReturn false,
       .transportClose, .protocolClear] ∧
    (disconnectEvents false).indexOf (.pollJoinReturn false) <
      (disconnectEvents false).indexOf .transportClose := by
  refine ⟨rfl, by decide, by decide⟩

/-- C7 as amended: `disconnect` clears the connected flag before the poll
worker is stopped and joined and leaves `connected = false` on return; the
join call (bounded by a 5-second timeout) always precedes the transport
close, and when the worker terminates within the timeout it is fully joined
before the close — but when the timeout elapses first, the transport is
closed with the worker still running. -/
theorem disconnect_ordering_amended :
    (∀ wt, (disconnectEvents wt).indexOf .setConnectedFalse <
      (disconnectEvents wt).indexOf .pollStopSet) ∧
    (∀ wt, (disconnectEvents wt).indexOf .setConnectedFalse <
      (disconnectEvents wt).indexOf (.pollJoinReturn wt)) ∧
    (∀ wt, (disconnectEvents wt).indexOf (.pollJoinReturn wt) <
      (disconnectEvents wt).indexOf .transportClose) ∧
    workerAliveAtClose true = false ∧
    workerAliveAtClose false = true ∧
    (∀ s, (disconnectState s).connected = false) := by
  refine ⟨?_, ?_, ?_, rfl, rfl, ?_⟩
  · intro wt
    cases wt <;> decide
  · intro wt
    cases wt <;> decide
  · intro wt
    cases wt <;> decide
  · intro s
    rfl

/-- Witness for `disconnect_ordering_amended` on a concrete initial state. -/
theorem disconnect_ordering_amended_witness :
    (disconnectState ⟨true, true⟩).connected = false :=
  disconnect_ordering_amended.2.2.2.2.2 ⟨true, true⟩

/-! ## `apc_ups/core/ups_manager.py` — PROG mode pause/resume (C8) -/

/-- Outcome of the protocol-level `enter_prog_mode` / `exit_prog_mode` call:
`success` and `failure` are the two return values, `exc` models the call
raising an exception. -/
inductive ProtoOutcome where
  | success
  | failure
  | exc
deriving DecidableEq, Repr

/-- Observable effect of one manager-level PROG-mode entry or exit. -/
structure ProgModeRun where
  pauseCalled : Bool
  resumeCalled : Bool
  raised : Bool
  retOk : Option Bool
deriving DecidableEq, Repr

/-- `UPSManager.enter_prog_mode` control flow: pause the poller, then
`try: success = protocol.enter_prog_mode(); ... finally: if not success:
resume`.  When the protocol call raises, the local `success` was never
assigned, so the `finally` clause itself raises `UnboundLocalError` at
`if not success` — the poller is NOT resumed and an exception escapes. -/
def enterProgModeRun : ProtoOutcome → ProgModeRun
  | .success => ⟨true, false, false, some true⟩
  | .failure => ⟨true, true, false, some false⟩
  | .exc => ⟨true, false, true, none⟩

/-- `UPSManager.exit_prog_mode` control flow: `try: protocol.exit_prog_mode()
... finally: resume` — the `finally` resumes unconditionally, once, whether
the ESC exchange returns or raises. -/
def exitProgModeRun : ProtoOutcome → ProgModeRun
  | .success => ⟨false, true, false, some true⟩
  | .failure => ⟨false, true, false, some true⟩
  | .exc => ⟨false, true, true, none⟩

/-- C8 (code bug): entry always pauses the poller and a plain failure resumes
it, a successful entry stays paused until `exit_prog_mode`, which resumes
exactly once on every outcome — but when the protocol handshake *raises*,
`enter_prog_mode` does not resume the poller (the `finally` clause trips over
the unbound local `success` and raises), contradicting the guarantee that
every failure exit resumes it. -/
theorem prog_mode_resume_paths :
    (∀ o, (enterProgModeRun o).pauseCalled = true) ∧
    (enterProgModeRun .failure).resumeCalled = true ∧
    (enterProgModeRun .success).resumeCalled = false ∧
    (∀ o, (exitProgModeRun o).resumeCalled = true) ∧
    (enterProgModeRun .exc).resumeCalled = false ∧
    (enterProgModeRun .exc).raised = true := by
  refine ⟨?_, rfl, rfl, ?_, rfl, rfl⟩
  · intro o
    cases o <;> rfl
  · intro o
    cases o <;> rfl

/-! ## `apc_ups/core/ups_manager.py` — history caps (C9) -/

/-- `UPSManager._record_battery_history`: skip when neither voltage nor
capacity is positive, else append `(now, voltage, capacity)` and trim to the
last 1800 entries (`history[-1800:]`). -/
def recordBatteryHistory (now : Nat) (voltage capacity : ℚ)
    (history : List (Nat × ℚ × ℚ)) : List (Nat × ℚ × ℚ) :=
  if voltage ≤ 0 ∧ capacity ≤ 0 then history
  else
    let h := history ++ [(now, voltage, capacity)]
    if 1800 < h.length then h.drop (h.length - 1800) else h

/-- `UPSManager._check_temperature`: skip when the reading is not positive,
else append `(now, temp)` and trim to the last 360 entries, then update the
alert flag against the threshold (`is_over = temp >= threshold`). -/
def checkTemperature (now : Nat) (temp threshold : ℚ) (wasActive : Bool)
    (history : List (Nat × ℚ)) : List (Nat × ℚ) × Bool :=
  if temp ≤ 0 then (history, wasActive)
  else
    let h := history ++ [(now, temp)]
    let trimmed := if 360 < h.length then h.drop (h.length - 360) else h
    let isOver := threshold ≤ temp
    (trimmed,
      if isOver ∧ ¬ wasActive then true
      else if ¬ isOver ∧ wasActive then false
      else wasActive)

/-- C9: after every history update (a poll cycle whose reading passes the
positivity guard), the voltage/capacity history holds at most 1800 entries
and the temperature history at most 360, and each retained list is a suffix
of the old list with the new sample appended — the oldest entries are the
ones dropped. -/
theorem history_caps_and_suffix :
    (∀ (now : Nat) (v c : ℚ) (hist : List (Nat × ℚ × ℚ)), ¬ (v ≤ 0 ∧ c ≤ 0) →
      (recordBatteryHistory now v c hist).length ≤ 1800 ∧
      recordBatteryHistory now v c hist <:+ hist ++ [(now, v, c)]) ∧
    (∀ (now : Nat) (t th : ℚ) (wa : Bool) (hist : List (Nat × ℚ)), ¬ t ≤ 0 →
      (checkTemperature now t th wa hist).1.length ≤ 360 ∧
      (checkTemperature now t th wa hist).1 <:+ hist ++ [(now, t)]) := by
  constructor
  · intro now v c hist hguard
    rw [recordBatteryHistory, if_neg hguard]
    by_cases hlen : 1800 < (hist ++ [(now, v, c)]).length
    · rw [if_pos hlen]
      constructor
      · rw [List.length_drop]
        omega
      · exact List.drop_suffix _ _
    · rw [if_neg hlen]
      constructor
      · omega
      · exact List.suffix_refl _
  · intro now t th wa hist hguard
    simp only [checkTemperature, if_neg hguard]
    by_cases hlen : 360 < (hist ++ [(now, t)]).length
    · rw [if_pos hlen]
      constructor
      · rw [List.length_drop]
        omega
      · exact List.drop_suffix _ _
    · rw [if_neg hlen]
      constructor
      · omega
      · exact List.suffix_refl _

/-- Witness for `history_caps_and_suffix` on a concrete sample. -/
theorem history_caps_and_suffix_witness :
    (recordBatteryHistory 0 27 100 []).length ≤ 1800 ∧
    recordBatteryHistory 0 27 100 [] <:+ [] ++ [(0, 27, 100)] :=
  history_caps_and_suffix.1 0 27 100 [] (by norm_num)

end APCUps
